import Mathlib

/-!
Shallow embedding of the Time Synchronization & Drift-Guard Engine of
`src/src/rtc.cpp` (namespace `RTC` of the firmware).  Machine integers are
modelled as `Nat` with explicit `% 2^32` wherever the C code performs 32-bit
unsigned arithmetic, and as `Int` wrapped into the signed 32-bit range where
the C code uses `int`.  External collaborators (GSM modem, HTTP transport,
external RTC chip, `settimeofday`) are modelled as an environment record
supplying the outcome of each call, and side effects are collected in an
explicit trace.
-/

namespace RTC

/-- `2^32`, the modulus of the MCU's 32-bit unsigned arithmetic
(`uint32_t` / `unsigned long` on the ESP32 target). -/
def U32 : Nat := 4294967296

/-- Wrapping subtraction on `uint32_t`: the value of `a - b` in C. -/
def u32sub (a b : Nat) : Nat := (a % U32 + (U32 - b % U32)) % U32

/-- The value of a 32-bit pattern read as a signed `int` (two's complement). -/
def toInt32 (n : Nat) : Int :=
  if n % U32 < 2147483648 then ((n % U32 : Nat) : Int) else ((n % U32 : Nat) : Int) - (U32 : Int)

/-- Wrap an integer into the signed 32-bit range (the effect of `int`
arithmetic wrapping on the target). -/
def int32OfInt (z : Int) : Int := toInt32 (z % (U32 : Int)).toNat

/-- C `abs` on 32-bit `int`.  Note `abs(INT_MIN)` wraps back to `INT_MIN`
on the target (two's-complement negation). -/
def i32abs (z : Int) : Int := if z < 0 then int32OfInt (-z) else z

/-- C conversion of a signed 32-bit value to `uint32_t`. -/
def toU32 (z : Int) : Nat := (z % (U32 : Int)).toNat

/-- Compile-time configuration: the `FLAGS.EXTERNAL_RTC_ENABLED` switch and
the plausibility-window bounds of `const.h`. -/
structure Config where
  EXTERNAL_RTC_ENABLED : Bool
  FAIL_CHECK_TIMESTAMP_START : Nat
  FAIL_CHECK_TIMESTAMP_END : Nat
deriving DecidableEq

/-- Modelled from the spec: the compile-time plausibility bounds
`FAIL_CHECK_TIMESTAMP_START` / `FAIL_CHECK_TIMESTAMP_END` are defined in
`const.h`, which is not among the sources at hand.  The spec fixes only that
they form a compile-time window ("not older than compile time") containing
realistic current epochs such as `1700000000` (its own HTTP example commits
that value).  For concrete instances we take 2021-01-01 and 2037-12-31. -/
def cfg0 : Config :=
  { EXTERNAL_RTC_ENABLED := true
    FAIL_CHECK_TIMESTAMP_START := 1609459200
    FAIL_CHECK_TIMESTAMP_END := 2145916800 }

/-- The module's mutable state: the settable system clock (epoch seconds,
read through `time(NULL)`, written through `settimeofday`) together with the
private variables of `rtc.cpp` (`_last_sync_tick`, `_last_drift_check_tick`,
`_last_drift_check_tstamp`, `_timechange_safety_enabled`). -/
structure RtcState where
  clock : Nat
  last_sync_tick : Nat
  last_drift_check_tstamp : Nat
  last_drift_check_tick : Nat
  timechange_safety_enabled : Bool
deriving DecidableEq

/-- `tstamp_valid` (rtc.cpp:550-553): strict plausibility-window check. -/
def tstamp_valid (cfg : Config) (tstamp : Nat) : Bool :=
  decide (cfg.FAIL_CHECK_TIMESTAMP_START < tstamp) &&
    decide (tstamp < cfg.FAIL_CHECK_TIMESTAMP_END)

/-- The tolerance of the safety gate (rtc.cpp:627-628):
`int tol = ceil((millis() - _last_sync_tick) / 1000) * 0.05;` followed by
`tol = tol < 10 ? 10 : tol;`.  The inner division is C *integer* division,
so `ceil` is applied to an already-integral value and is the identity; the
double product `secs * 0.05` is then truncated by the assignment to `int`.
On the exactly-representable inputs involved this truncation equals the
mathematical floor, i.e. `secs / 20` in integer arithmetic (the double
nearest to 0.05 is slightly above 1/20, and at exact multiples of 20 the
product still rounds to the integer itself). -/
def safety_tolerance (elapsed_ms : Nat) : Nat :=
  max 10 (elapsed_ms / 1000 / 20)

/-- The tolerance as the claim words it: `max(10, ceil(5% × seconds))` with
`seconds = elapsed_ms / 1000`.  This definition follows the words of the
spec/claim C1 and exists only to be compared with `safety_tolerance`,
which follows the code. -/
def spec_safety_tolerance (elapsed_ms : Nat) : Nat :=
  max 10 ((elapsed_ms / 1000 * 5 + 99) / 100)

/-- The recorded time source of a sync attempt (local enum of `sync`). -/
inductive TimeSource
  | OTHER
  | NTP
  | HTTP
  | GSM
deriving DecidableEq

/-- `RetResult` of `common.h`: the two-valued result type of the firmware. -/
inductive RetResult
  | RET_OK
  | RET_ERROR
deriving DecidableEq

/-- Observable side effects of the engine, collected in program order:
time-source consultations (HTTP GET, NTP trigger, GSM clock read, external
RTC read), system-clock commits (`v`, and whether `settimeofday`
succeeded), external-RTC write-backs, calls into `set_system_time`, and the
diagnostic log events. -/
inductive Effect
  | httpGet
  | ntpSync (ok : Bool)
  | gsmClockRead
  | extRtcRead
  | setSysCall (v : Nat)
  | commitTime (v : Nat) (ok : Bool)
  | extRtcWrite (v : Nat) (ok : Bool)
  | logUnsafe (v : Nat)
  | logSync (pre : Nat) (source : TimeSource)
deriving DecidableEq

/-- Is this effect a consultation of one of the four time sources? -/
def is_source_consult : Effect → Bool
  | Effect.httpGet => true
  | Effect.ntpSync _ => true
  | Effect.gsmClockRead => true
  | Effect.extRtcRead => true
  | _ => false

/-- Is this effect the single HTTP GET of `sync_time_from_http`? -/
def is_http_get : Effect → Bool
  | Effect.httpGet => true
  | _ => false

/-- `check_timechange_safe` (rtc.cpp:615-645).  `now_tick` is the `millis()`
reading inside the call; `st.clock` is the `RTC::get_timestamp()` reading.
Returns the verdict together with the diagnostic log events emitted. -/
def check_timechange_safe (cfg : Config) (st : RtcState) (now_tick tstamp : Nat) :
    Bool × List Effect :=
  if !tstamp_valid cfg tstamp then (false, [])
  else if st.timechange_safety_enabled then
    if !cfg.EXTERNAL_RTC_ENABLED then (true, [])
    else
      let cur_tstamp := st.clock
      let tol := safety_tolerance (u32sub now_tick st.last_sync_tick)
      if tstamp < u32sub cur_tstamp tol ∨ (cur_tstamp + tol) % U32 < tstamp then
        (false, [Effect.logUnsafe tstamp])
      else (true, [])
  else (true, [])

/-- One sync attempt's environment: the outcomes of the external
collaborators (GSM modem, HTTP transport, external RTC chip, the
`settimeofday` syscall) and the `millis()` reading at each call site, in
program order.  Bounded retry loops of the GSM layer are represented by
their eventual outcome. -/
structure SyncEnv where
  gprs_connected : Bool
  connect_ok : Bool
  url_ok : Bool
  http_start_tick : Nat
  http_resp : Option String
  http_end_tick : Nat
  http_check_tick : Nat
  http_set_ok : Bool
  ntp_ok : Bool
  gsm_time : Option Nat
  gsm_check_tick : Nat
  gsm_set_ok : Bool
  ext_rtc_time : Nat
  ext_rtc_check_tick : Nat
  ext_rtc_set_ok : Bool
  ext_rtc_write_ok : Bool
  end_tick : Nat
  drift_reset_tick : Nat
deriving DecidableEq

/-- Is this byte one of C's `isspace` characters (skipped by `sscanf`)? -/
def is_c_space (c : Char) : Bool := c.toNat = 32 || (9 ≤ c.toNat && c.toNat ≤ 13)

/-- ASCII decimal digit test. -/
def is_ascii_digit (c : Char) : Bool := 48 ≤ c.toNat && c.toNat ≤ 57

/-- Decimal value of a digit string. -/
def digits_to_nat (ds : List Char) : Nat := ds.foldl (fun a c => a * 10 + (c.toNat - 48)) 0

/-- `sscanf(resp, "%u", &timestamp)` with `timestamp` initialised to `0`
(rtc.cpp:335-336): skip leading whitespace, convert the maximal run of
decimal digits into the 32-bit `unsigned long`; on a matching failure (no
digits) the variable keeps its initial `0`.  (The optional sign accepted by
`%u` is not modelled; no caller-relevant body carries one.) -/
def scan_u (s : String) : Nat :=
  digits_to_nat ((s.toList.dropWhile is_c_space).takeWhile is_ascii_digit) % U32

/-- `int offset_sec = round((float)(end_time_ms - start_time_ms) / 1000);`
(rtc.cpp:339): C `round` is round-half-away-from-zero; on the nonnegative,
exactly-representable elapsed times of an HTTP round trip this equals the
integer form `(elapsed_ms + 500) / 1000`. -/
def offset_sec (elapsed_ms : Nat) : Nat := (elapsed_ms + 500) / 1000

/-- The latency-compensated HTTP candidate: `timestamp -= offset_sec;` on
the 32-bit `unsigned long` parsed from the body (rtc.cpp:335-343). -/
def http_candidate (parsed start_ms end_ms : Nat) : Nat :=
  u32sub parsed (offset_sec (u32sub end_ms start_ms))

/-- `set_system_time` (rtc.cpp:486-506).  `tv_sec` is a 32-bit `long`, so
the `== -1` guard rejects exactly the timestamp whose 32-bit pattern is
all-ones, without calling `settimeofday`; otherwise the call succeeds iff
the syscall does (`ok`). -/
def set_system_time (st : RtcState) (ok : Bool) (timestamp : Nat) :
    RetResult × RtcState × List Effect :=
  if timestamp % U32 = U32 - 1 then
    (RetResult.RET_ERROR, st, [Effect.setSysCall (timestamp % U32)])
  else if ok then
    (RetResult.RET_OK, { st with clock := timestamp % U32 },
      [Effect.setSysCall (timestamp % U32), Effect.commitTime (timestamp % U32) true])
  else
    (RetResult.RET_ERROR, st,
      [Effect.setSysCall (timestamp % U32), Effect.commitTime (timestamp % U32) false])

/-- `sync_time_from_http` (rtc.cpp:289-361): break the configured URL,
issue one GET, reject any body whose length is not 10, parse with
`sscanf "%u"`, compensate for the request round trip, gate the candidate,
and commit it via `set_system_time`. -/
def sync_time_from_http (cfg : Config) (env : SyncEnv) (st : RtcState) :
    RetResult × RtcState × List Effect :=
  if !env.url_ok then (RetResult.RET_ERROR, st, [])
  else
    match env.http_resp with
    | none => (RetResult.RET_ERROR, st, [Effect.httpGet])
    | some resp =>
      if resp.length ≠ 10 then (RetResult.RET_ERROR, st, [Effect.httpGet])
      else
        let timestamp := http_candidate (scan_u resp) env.http_start_tick env.http_end_tick
        let chk := check_timechange_safe cfg st env.http_check_tick timestamp
        if !chk.1 then (RetResult.RET_ERROR, st, [Effect.httpGet] ++ chk.2)
        else
          let s := set_system_time st env.http_set_ok timestamp
          (s.1, s.2.1, [Effect.httpGet] ++ chk.2 ++ s.2.2)

/-- `sync_gsm_rtc_from_ntp` (rtc.cpp:204-232): the `GSM_TRIES` retry loop
around `GSM::update_ntp_time`, reduced to its eventual outcome. -/
def sync_gsm_rtc_from_ntp (env : SyncEnv) : RetResult × List Effect :=
  (if env.ntp_ok then RetResult.RET_OK else RetResult.RET_ERROR, [Effect.ntpSync env.ntp_ok])

/-- `sync_time_from_gsm_rtc` (rtc.cpp:239-280): read the modem clock (with
retries, reduced to the eventual outcome `env.gsm_time`), gate the value,
and commit it via `set_system_time`. -/
def sync_time_from_gsm_rtc (cfg : Config) (env : SyncEnv) (st : RtcState) :
    RetResult × RtcState × List Effect :=
  match env.gsm_time with
  | none => (RetResult.RET_ERROR, st, [Effect.gsmClockRead])
  | some t =>
    let timestamp := t % U32
    let chk := check_timechange_safe cfg st env.gsm_check_tick timestamp
    if !chk.1 then (RetResult.RET_ERROR, st, [Effect.gsmClockRead] ++ chk.2)
    else
      let s := set_system_time st env.gsm_set_ok timestamp
      (s.1, s.2.1, [Effect.gsmClockRead] ++ chk.2 ++ s.2.2)

/-- `sync_time_from_ext_rtc` (rtc.cpp:366-398): read the external RTC, gate
the value, and commit it directly through `settimeofday`. -/
def sync_time_from_ext_rtc (cfg : Config) (env : SyncEnv) (st : RtcState) :
    RetResult × RtcState × List Effect :=
  if !cfg.EXTERNAL_RTC_ENABLED then (RetResult.RET_ERROR, st, [])
  else
    let ext_rtc_tstamp := env.ext_rtc_time % U32
    let chk := check_timechange_safe cfg st env.ext_rtc_check_tick ext_rtc_tstamp
    if !chk.1 then (RetResult.RET_ERROR, st, [Effect.extRtcRead] ++ chk.2)
    else if env.ext_rtc_set_ok then
      (RetResult.RET_OK, { st with clock := ext_rtc_tstamp },
        [Effect.extRtcRead] ++ chk.2 ++ [Effect.commitTime ext_rtc_tstamp true])
    else
      (RetResult.RET_ERROR, st,
        [Effect.extRtcRead] ++ chk.2 ++ [Effect.commitTime ext_rtc_tstamp false])

/-- Modelled from the spec: `SECONDS_IN_2000` lives in `const.h`, which is
not among the sources at hand; the spec says the adapter "converts to the
chip's native epoch base (an offset, e.g. seconds since year 2000)".  The
epoch of 2000-01-01T00:00:00Z is 946684800. -/
def SECONDS_IN_2000 : Nat := 946684800

/-- `set_external_rtc_time` (rtc.cpp:457-481): write `timestamp` minus the
year-2000 offset to the chip; succeeds iff the bus write does. -/
def set_external_rtc_time (env : SyncEnv) (timestamp : Nat) : RetResult × List Effect :=
  if env.ext_rtc_write_ok then
    (RetResult.RET_OK, [Effect.extRtcWrite (u32sub timestamp SECONDS_IN_2000) true])
  else
    (RetResult.RET_ERROR, [Effect.extRtcWrite (u32sub timestamp SECONDS_IN_2000) false])

/-- `reset_drift_check` (rtc.cpp:602-606): record the current tick and the
current wall-clock timestamp as the drift baseline. -/
def reset_drift_check (st : RtcState) (now_tick : Nat) : RtcState :=
  { st with last_drift_check_tick := now_tick % U32, last_drift_check_tstamp := st.clock }

/-- Tolerance of the drift detector (rtc.cpp:584-585):
`int tol = ceil(tick_since_sync_sec * 0.05);` with the same `< 10` clamp.
Here (unlike in `check_timechange_safe`) `ceil` is applied to the double
product, giving the mathematical ceiling `(secs + 19) / 20` on the
exactly-representable inputs involved. -/
def drift_tolerance (elapsed_sec : Nat) : Nat :=
  max 10 ((elapsed_sec + 19) / 20)

/-- `detect_drift` (rtc.cpp:558-596).  `now_tick` is the `millis()` reading,
`ext_rtc_now` the external RTC reading inside the call.  The two elapsed
quantities are compared with the unsigned band
`[tick_since_sync_sec - tol, tick_since_sync_sec + tol]` (both bounds
computed in `uint32_t` arithmetic); the returned drift is the `uint32_t`
difference read back as a signed `int`. -/
def detect_drift (cfg : Config) (st : RtcState) (now_tick ext_rtc_now : Nat) : Int :=
  if !cfg.EXTERNAL_RTC_ENABLED then 0
  else
    let cur_tstamp := ext_rtc_now % U32
    if st.last_drift_check_tick = 0 ∨ st.last_drift_check_tstamp = 0 then 0
    else
      let tick_since_sync_sec := u32sub now_tick st.last_drift_check_tick / 1000
      let tstamp_since_sync :=
        toU32 (i32abs (int32OfInt (toInt32 cur_tstamp - toInt32 st.last_drift_check_tstamp)))
      let tol := drift_tolerance tick_since_sync_sec
      if tstamp_since_sync < u32sub tick_since_sync_sec tol ∨
          (tick_since_sync_sec + tol) % U32 < tstamp_since_sync then
        toInt32 (u32sub tstamp_since_sync tick_since_sync_sec)
      else 0

/-- The inner fallback of the connected branch of `sync` (rtc.cpp:132-159):
external RTC first (short-circuited on `FLAGS.EXTERNAL_RTC_ENABLED`), then
the raw GSM clock.  Returns
(result, recorded source, `update_ext_rtc`, state, accumulated trace). -/
def sync_net_fallback (cfg : Config) (env : SyncEnv) (st : RtcState) (acc : List Effect) :
    RetResult × TimeSource × Bool × RtcState × List Effect :=
  if cfg.EXTERNAL_RTC_ENABLED then
    let e := sync_time_from_ext_rtc cfg env st
    if e.1 = RetResult.RET_OK then
      (RetResult.RET_OK, TimeSource.OTHER, false, e.2.1, acc ++ e.2.2)
    else
      let g := sync_time_from_gsm_rtc cfg env e.2.1
      if g.1 = RetResult.RET_OK then
        (RetResult.RET_OK, TimeSource.GSM, true, g.2.1, acc ++ e.2.2 ++ g.2.2)
      else (RetResult.RET_ERROR, TimeSource.OTHER, true, g.2.1, acc ++ e.2.2 ++ g.2.2)
  else
    let g := sync_time_from_gsm_rtc cfg env st
    if g.1 = RetResult.RET_OK then
      (RetResult.RET_OK, TimeSource.GSM, true, g.2.1, acc ++ g.2.2)
    else (RetResult.RET_ERROR, TimeSource.OTHER, true, g.2.1, acc ++ g.2.2)

/-- The source-walking part of `sync` (rtc.cpp:94-175): HTTP, then
NTP-then-GSM-clock, then external RTC, then raw GSM clock when the network
is up; external RTC alone otherwise. -/
def sync_main (cfg : Config) (env : SyncEnv) (st : RtcState) :
    RetResult × TimeSource × Bool × RtcState × List Effect :=
  if env.gprs_connected || env.connect_ok then
    let h := sync_time_from_http cfg env st
    if h.1 = RetResult.RET_OK then
      (RetResult.RET_OK, TimeSource.HTTP, true, h.2.1, h.2.2)
    else
      let n := sync_gsm_rtc_from_ntp env
      if n.1 = RetResult.RET_OK then
        let g := sync_time_from_gsm_rtc cfg env h.2.1
        if g.1 = RetResult.RET_OK then
          (RetResult.RET_OK, TimeSource.NTP, true, g.2.1, h.2.2 ++ n.2 ++ g.2.2)
        else sync_net_fallback cfg env g.2.1 (h.2.2 ++ n.2 ++ g.2.2)
      else sync_net_fallback cfg env h.2.1 (h.2.2 ++ n.2)
  else
    if cfg.EXTERNAL_RTC_ENABLED then
      let e := sync_time_from_ext_rtc cfg env st
      if e.1 = RetResult.RET_OK then
        (RetResult.RET_OK, TimeSource.OTHER, false, e.2.1, e.2.2)
      else (RetResult.RET_ERROR, TimeSource.OTHER, true, e.2.1, e.2.2)
    else (RetResult.RET_ERROR, TimeSource.OTHER, true, st, [])

/-- `sync` (rtc.cpp:68-199): the orchestrator.  Sets the safety flag from
the caller's `enable_safety`, walks the sources, writes the external RTC
back when time came from elsewhere and the attempt succeeded, logs the
attempt, always records `_last_sync_tick`, resets the drift baseline on
success, and always re-enables timechange safety before returning.
Returns (result, recorded source, final state, effect trace). -/
def sync (cfg : Config) (env : SyncEnv) (st0 : RtcState) (enable_safety : Bool) :
    RetResult × TimeSource × RtcState × List Effect :=
  let st := { st0 with timechange_safety_enabled := enable_safety }
  let tstamp_before_sync := st.clock
  let main := sync_main cfg env st
  let st1 := main.2.2.2.1
  let wr :=
    if cfg.EXTERNAL_RTC_ENABLED ∧ main.2.2.1 = true ∧ main.1 = RetResult.RET_OK then
      (set_external_rtc_time env st1.clock).2
    else []
  let es := main.2.2.2.2 ++ wr ++ [Effect.logSync tstamp_before_sync main.2.1]
  let st2 := { st1 with last_sync_tick := env.end_tick % U32 }
  let st3 :=
    if main.1 = RetResult.RET_OK then reset_drift_check st2 env.drift_reset_tick else st2
  let st4 := { st3 with timechange_safety_enabled := true }
  (main.1, main.2.1, st4, es)

/-! ### Arithmetic helper lemmas -/

lemma u32sub_eq_of_le {a b : Nat} (hba : b ≤ a) (ha : a < U32) : u32sub a b = a - b := by
  unfold u32sub U32 at *
  omega

lemma u32sub_lt (a b : Nat) : u32sub a b < U32 := by
  unfold u32sub U32
  omega

lemma toInt32_u32sub {a b : Nat} (ha : a < 2147483648) (hb : b < 2147483648) :
    toInt32 (u32sub a b) = (a : Int) - (b : Int) := by
  unfold toInt32 u32sub U32 at *
  split <;> omega

lemma abs_diff_model {a b : Nat} (ha : a < 2147483648) (hb : b < 2147483648) :
    toU32 (i32abs (int32OfInt (toInt32 a - toInt32 b))) = max a b - min a b := by
  unfold toU32 i32abs int32OfInt toInt32 U32 at *
  repeat' split
  all_goals omega

/-! ### Safety-gate lemmas -/

lemma check_invalid {cfg : Config} {tstamp : Nat} (st : RtcState) (now_tick : Nat)
    (h : tstamp_valid cfg tstamp = false) :
    check_timechange_safe cfg st now_tick tstamp = (false, []) := by
  unfold check_timechange_safe
  rw [h]
  simp

lemma check_true_no_log {cfg : Config} {st : RtcState} {now_tick tstamp : Nat}
    (h : (check_timechange_safe cfg st now_tick tstamp).1 = true) :
    (check_timechange_safe cfg st now_tick tstamp).2 = [] := by
  unfold check_timechange_safe at h ⊢
  repeat' split <;> simp_all

lemma check_snd (cfg : Config) (st : RtcState) (now_tick tstamp : Nat) :
    (check_timechange_safe cfg st now_tick tstamp).2 = [] ∨
      (check_timechange_safe cfg st now_tick tstamp).2 = [Effect.logUnsafe tstamp] := by
  unfold check_timechange_safe
  repeat' split
  any_goals simp
  by_cases hc : tstamp < u32sub st.clock (safety_tolerance (u32sub now_tick st.last_sync_tick)) ∨
      (st.clock + safety_tolerance (u32sub now_tick st.last_sync_tick)) % U32 < tstamp
  · simp [hc]
  · simp [hc]

/-! ### Concrete states reused by the claim instances -/

/-- A state whose clock reads a realistic epoch, freshly booted tick-wise. -/
def stC1 : RtcState :=
  { clock := 1700000000, last_sync_tick := 0, last_drift_check_tstamp := 0,
    last_drift_check_tick := 0, timechange_safety_enabled := true }

/-- A state with a taken drift checkpoint (tick 1000, timestamp 1000). -/
def stC2 : RtcState :=
  { clock := 1000, last_sync_tick := 0, last_drift_check_tstamp := 1000,
    last_drift_check_tick := 1000, timechange_safety_enabled := true }

/-- C7: for every timestamp and every configuration (safety on or off,
external RTC on or off), if the safety gate `check_timechange_safe` accepts
the timestamp then it lies strictly between `FAIL_CHECK_TIMESTAMP_START`
and `FAIL_CHECK_TIMESTAMP_END`. -/
theorem C7_gate_accepts_only_plausible (cfg : Config) (st : RtcState) (now_tick tstamp : Nat)
    (h : (check_timechange_safe cfg st now_tick tstamp).1 = true) :
    cfg.FAIL_CHECK_TIMESTAMP_START < tstamp ∧ tstamp < cfg.FAIL_CHECK_TIMESTAMP_END := by
  by_cases hv : tstamp_valid cfg tstamp = true
  · unfold tstamp_valid at hv
    simp only [Bool.and_eq_true, decide_eq_true_eq] at hv
    exact hv
  · rw [check_invalid st now_tick (Bool.not_eq_true _ ▸ Bool.of_not_eq_true hv)] at h
    simp at h

/-- Witness for C7 at a concrete accepted timestamp. -/
theorem C7_witness :
    cfg0.FAIL_CHECK_TIMESTAMP_START < 1700000000 ∧
      1700000000 < cfg0.FAIL_CHECK_TIMESTAMP_END :=
  C7_gate_accepts_only_plausible cfg0 stC1 100000 1700000000 (by decide)

/-- C8: whatever `enable_safety` the caller passed and whichever fallback
path `sync` took, the timechange-safety flag is `true` when `sync`
returns. -/
theorem C8_safety_always_reenabled (cfg : Config) (env : SyncEnv) (st0 : RtcState) (b : Bool) :
    ((sync cfg env st0 b).2.2.1).timechange_safety_enabled = true := rfl

/-- C10: `detect_drift` is a no-op (returns 0) whenever either checkpoint
field is zero, not only when both are; and if `reset_drift_check` runs
while the system clock reads 0, the stored checkpoint timestamp is 0 and
drift detection remains a no-op. -/
theorem C10_zero_checkpoint_noop (cfg : Config) (st : RtcState)
    (now_tick ext_rtc_now reset_tick now2 rtc2 : Nat) :
    ((st.last_drift_check_tick = 0 ∨ st.last_drift_check_tstamp = 0) →
      detect_drift cfg st now_tick ext_rtc_now = 0) ∧
    (st.clock = 0 →
      (reset_drift_check st reset_tick).last_drift_check_tstamp = 0 ∧
      detect_drift cfg (reset_drift_check st reset_tick) now2 rtc2 = 0) := by
  refine ⟨fun h => ?_, fun h => ⟨h, ?_⟩⟩
  · unfold detect_drift
    repeat' split <;> simp_all
  · unfold detect_drift reset_drift_check
    repeat' split <;> simp_all

/-- Witness for C10: a state with a zero checkpoint timestamp but a nonzero
checkpoint tick still reports no drift. -/
theorem C10_witness :
    detect_drift cfg0
      { clock := 0, last_sync_tick := 0, last_drift_check_tstamp := 0,
        last_drift_check_tick := 4000, timechange_safety_enabled := true } 9000 1700000000 = 0 :=
  (C10_zero_checkpoint_noop cfg0
      { clock := 0, last_sync_tick := 0, last_drift_check_tstamp := 0,
        last_drift_check_tick := 4000, timechange_safety_enabled := true }
      9000 1700000000 0 0 0).1 (Or.inr rfl)

/-- C4 counterexample: with request start tick 1000 ms, end tick 3500 ms
and body `"1700000000"`, the latency-compensated candidate is *not*
`1699999998`: C `round` rounds the tie 2.5 away from zero, to 3. -/
theorem C4_cex :
    ¬ (http_candidate (scan_u "1700000000") 1000 3500 = 1699999998) := by decide

/-- C4 amended: the body `"1700000000"` parses to 1700000000 and the
latency-compensated candidate for start tick 1000 ms / end tick 3500 ms is
`1700000000 - round(2.5) = 1700000000 - 3 = 1699999997` (round half away
from zero). -/
theorem C4_latency_compensation :
    scan_u "1700000000" = 1700000000 ∧
      http_candidate 1700000000 1000 3500 = 1699999997 := by decide

/-- C1 counterexample: with safety and the external RTC enabled, clock
1700000000, last sync at tick 0 and current tick 201000 (201 elapsed
seconds), the claim's tolerance `max(10, ceil(5% × 201)) = 11` admits the
plausible candidate 1700000011 inside its closed band, yet
`check_timechange_safe` rejects it: the code truncates `201 × 0.05` to 10
instead of taking the ceiling. -/
theorem C1_cex :
    cfg0.EXTERNAL_RTC_ENABLED = true ∧
    stC1.timechange_safety_enabled = true ∧
    tstamp_valid cfg0 1700000011 = true ∧
    spec_safety_tolerance (u32sub 201000 stC1.last_sync_tick) = 11 ∧
    stC1.clock - 11 ≤ 1700000011 ∧ 1700000011 ≤ stC1.clock + 11 ∧
    (check_timechange_safe cfg0 stC1 201000 1700000011).1 = false := by decide

/-- C1 amended: with safety and the external RTC enabled and a plausible
candidate, the gate accepts exactly the closed band
`[cur - tol, cur + tol]` around the current clock, where the tolerance is
`max(10, floor(5% × (ms / 1000)))` — the truncated product, not its
ceiling — provided the band does not wrap the 32-bit range. -/
theorem C1_gate_band (cfg : Config) (st : RtcState) (now_tick tstamp : Nat)
    (hsafe : st.timechange_safety_enabled = true)
    (hext : cfg.EXTERNAL_RTC_ENABLED = true)
    (hval : tstamp_valid cfg tstamp = true)
    (hlo : safety_tolerance (u32sub now_tick st.last_sync_tick) ≤ st.clock)
    (hhi : st.clock + safety_tolerance (u32sub now_tick st.last_sync_tick) < U32) :
    ((check_timechange_safe cfg st now_tick tstamp).1 = true ↔
      st.clock - safety_tolerance (u32sub now_tick st.last_sync_tick) ≤ tstamp ∧
      tstamp ≤ st.clock + safety_tolerance (u32sub now_tick st.last_sync_tick)) := by
  have hclk : st.clock < U32 := lt_of_le_of_lt (Nat.le_add_right _ _) hhi
  unfold check_timechange_safe
  rw [hval, hsafe, hext]
  simp only [Bool.not_true, Bool.false_eq_true, if_false, if_true]
  rw [u32sub_eq_of_le hlo hclk, Nat.mod_eq_of_lt hhi]
  split
  · next hcond =>
    simp only [Bool.false_eq_true, false_iff]
    omega
  · next hcond =>
    simp only [true_iff]
    omega

/-! ### Drift-detector lemmas and claims C2 / C9 -/

/-- The claim's `elapsed_ticks_sec`: tick-measured seconds since the
checkpoint (mathematical, non-wrapping form). -/
def elapsed_ticks_sec (st : RtcState) (now_tick : Nat) : Nat :=
  (now_tick - st.last_drift_check_tick) / 1000

/-- The claim's `elapsed_rtc_sec`: `|rtc_now - checkpoint.timestamp|`
(mathematical, non-wrapping form). -/
def elapsed_rtc_sec (st : RtcState) (ext_rtc_now : Nat) : Nat :=
  max ext_rtc_now st.last_drift_check_tstamp - min ext_rtc_now st.last_drift_check_tstamp

/-- In the active case (external RTC enabled, both checkpoint fields
nonzero, no tick wrap, both timestamps below `2^31`), `detect_drift`
computes with the mathematical elapsed quantities; only the lower band
bound `tick_since_sync_sec - tol` keeps its wrapping `uint32_t` form. -/
lemma detect_drift_active (cfg : Config) (st : RtcState) (now_tick ext_rtc_now : Nat)
    (hext : cfg.EXTERNAL_RTC_ENABLED = true)
    (htk : st.last_drift_check_tick ≠ 0) (hts : st.last_drift_check_tstamp ≠ 0)
    (hmono : st.last_drift_check_tick ≤ now_tick) (hnw : now_tick < U32)
    (hrb : ext_rtc_now < 2147483648) (hcb : st.last_drift_check_tstamp < 2147483648) :
    detect_drift cfg st now_tick ext_rtc_now =
      if elapsed_rtc_sec st ext_rtc_now <
            u32sub (elapsed_ticks_sec st now_tick) (drift_tolerance (elapsed_ticks_sec st now_tick)) ∨
          elapsed_ticks_sec st now_tick + drift_tolerance (elapsed_ticks_sec st now_tick) <
            elapsed_rtc_sec st ext_rtc_now then
        (elapsed_rtc_sec st ext_rtc_now : Int) - (elapsed_ticks_sec st now_tick : Int)
      else 0 := by
  have hmod : ext_rtc_now % U32 = ext_rtc_now := by
    apply Nat.mod_eq_of_lt
    unfold U32
    omega
  have hticks : u32sub now_tick st.last_drift_check_tick / 1000 = elapsed_ticks_sec st now_tick := by
    rw [u32sub_eq_of_le hmono hnw]
    rfl
  have habs : toU32 (i32abs (int32OfInt
      (toInt32 (ext_rtc_now % U32) - toInt32 st.last_drift_check_tstamp))) =
      elapsed_rtc_sec st ext_rtc_now := by
    rw [hmod]
    exact abs_diff_model hrb hcb
  have hticks_lt : elapsed_ticks_sec st now_tick < 4294968 := by
    unfold elapsed_ticks_sec U32 at *
    omega
  have htol_le : drift_tolerance (elapsed_ticks_sec st now_tick) ≤
      elapsed_ticks_sec st now_tick + 29 := by
    unfold drift_tolerance
    rcases Nat.le_total 10 ((elapsed_ticks_sec st now_tick + 19) / 20) with h | h
    · rw [Nat.max_eq_right h]
      omega
    · rw [Nat.max_eq_left h]
      omega
  have hsum : (elapsed_ticks_sec st now_tick + drift_tolerance (elapsed_ticks_sec st now_tick)) % U32 =
      elapsed_ticks_sec st now_tick + drift_tolerance (elapsed_ticks_sec st now_tick) := by
    apply Nat.mod_eq_of_lt
    unfold U32
    omega
  have hrtc_lt : elapsed_rtc_sec st ext_rtc_now < 2147483648 := by
    unfold elapsed_rtc_sec
    omega
  unfold detect_drift
  rw [hext]
  simp only [Bool.not_true, Bool.false_eq_true, if_false]
  rw [if_neg (by push_neg; exact ⟨htk, hts⟩)]
  rw [hticks, habs, hsum]
  split
  · exact toInt32_u32sub hrtc_lt (by omega)
  · rfl

/-- C2 counterexample: external RTC enabled, checkpoint
(tick 1000, timestamp 1000); at tick 6000 (5 elapsed seconds) the external
RTC reads 1003 (3 elapsed seconds).  The tolerance is 10, so the claim's
band `[5 - 10, 5 + 10]` contains 3 and the claim predicts 0 — but the
unsigned `5 - 10` wraps and `detect_drift` returns `3 - 5 = -2`. -/
theorem C2_cex :
    cfg0.EXTERNAL_RTC_ENABLED = true ∧
    elapsed_ticks_sec stC2 6000 = 5 ∧
    elapsed_rtc_sec stC2 1003 = 3 ∧
    drift_tolerance 5 = 10 ∧
    ((5 : Int) - 10 ≤ 3 ∧ (3 : Int) ≤ 5 + 10) ∧
    detect_drift cfg0 stC2 6000 1003 = -2 := by decide

/-- C2 amended: under the additional hypothesis that the tolerance does not
exceed the elapsed tick seconds (so the unsigned lower band bound does not
wrap), `detect_drift` returns `elapsed_rtc_sec - elapsed_ticks_sec` when
`elapsed_rtc_sec` falls outside `[elapsed_ticks_sec - tol,
elapsed_ticks_sec + tol]` and 0 otherwise. -/
theorem C2_drift_band (cfg : Config) (st : RtcState) (now_tick ext_rtc_now : Nat)
    (hext : cfg.EXTERNAL_RTC_ENABLED = true)
    (htk : st.last_drift_check_tick ≠ 0) (hts : st.last_drift_check_tstamp ≠ 0)
    (hmono : st.last_drift_check_tick ≤ now_tick) (hnw : now_tick < U32)
    (hrb : ext_rtc_now < 2147483648) (hcb : st.last_drift_check_tstamp < 2147483648)
    (htol : drift_tolerance (elapsed_ticks_sec st now_tick) ≤ elapsed_ticks_sec st now_tick) :
    detect_drift cfg st now_tick ext_rtc_now =
      if elapsed_rtc_sec st ext_rtc_now <
            elapsed_ticks_sec st now_tick - drift_tolerance (elapsed_ticks_sec st now_tick) ∨
          elapsed_ticks_sec st now_tick + drift_tolerance (elapsed_ticks_sec st now_tick) <
            elapsed_rtc_sec st ext_rtc_now then
        (elapsed_rtc_sec st ext_rtc_now : Int) - (elapsed_ticks_sec st now_tick : Int)
      else 0 := by
  rw [detect_drift_active cfg st now_tick ext_rtc_now hext htk hts hmono hnw hrb hcb]
  rw [u32sub_eq_of_le htol (by unfold elapsed_ticks_sec U32 at *; omega)]

/-- Witness for the amended C2, on the spec's own drift example shifted to
a nonzero checkpoint: checkpoint (tick 1000, timestamp 1000), now tick
121000 (120 s), external RTC 1135 (135 s), tolerance 10, drift 15. -/
theorem C2_witness : detect_drift cfg0 stC2 121000 1135 = 15 :=
  (C2_drift_band cfg0 stC2 121000 1135 rfl (by decide) (by decide) (by decide)
      (by decide) (by decide) (by decide) (by decide)).trans (by decide)

/-- C9: when the elapsed tick seconds are strictly below the tolerance,
the unsigned lower band bound `tick_since_sync_sec - tol` wraps modulo
`2^32` (first conjunct), the out-of-band test therefore fires, and
`detect_drift` returns `elapsed_rtc_sec - elapsed_ticks_sec` — nonzero
whenever the two elapsed values differ at all, even by less than the
tolerance. -/
theorem C9_wrapped_band_fires (cfg : Config) (st : RtcState) (now_tick ext_rtc_now : Nat)
    (hext : cfg.EXTERNAL_RTC_ENABLED = true)
    (htk : st.last_drift_check_tick ≠ 0) (hts : st.last_drift_check_tstamp ≠ 0)
    (hmono : st.last_drift_check_tick ≤ now_tick) (hnw : now_tick < U32)
    (hrb : ext_rtc_now < 2147483648) (hcb : st.last_drift_check_tstamp < 2147483648)
    (hlt : elapsed_ticks_sec st now_tick < drift_tolerance (elapsed_ticks_sec st now_tick)) :
    elapsed_ticks_sec st now_tick <
      u32sub (elapsed_ticks_sec st now_tick) (drift_tolerance (elapsed_ticks_sec st now_tick)) ∧
    detect_drift cfg st now_tick ext_rtc_now =
      (elapsed_rtc_sec st ext_rtc_now : Int) - (elapsed_ticks_sec st now_tick : Int) ∧
    (elapsed_rtc_sec st ext_rtc_now ≠ elapsed_ticks_sec st now_tick →
      detect_drift cfg st now_tick ext_rtc_now ≠ 0) := by
  have hsmall : elapsed_ticks_sec st now_tick ≤ 9 ∧
      drift_tolerance (elapsed_ticks_sec st now_tick) = 10 := by
    unfold drift_tolerance at hlt ⊢
    rcases Nat.le_total 10 ((elapsed_ticks_sec st now_tick + 19) / 20) with h | h
    · rw [Nat.max_eq_right h] at hlt ⊢
      omega
    · rw [Nat.max_eq_left h] at hlt ⊢
      omega
  have hwrap : u32sub (elapsed_ticks_sec st now_tick)
      (drift_tolerance (elapsed_ticks_sec st now_tick)) =
      U32 - (10 - elapsed_ticks_sec st now_tick) := by
    rw [hsmall.2]
    unfold u32sub U32
    omega
  have hrtc_lt : elapsed_rtc_sec st ext_rtc_now < 2147483648 := by
    unfold elapsed_rtc_sec
    omega
  have hfire : elapsed_rtc_sec st ext_rtc_now <
      u32sub (elapsed_ticks_sec st now_tick) (drift_tolerance (elapsed_ticks_sec st now_tick)) := by
    rw [hwrap]
    unfold U32
    omega
  have heq : detect_drift cfg st now_tick ext_rtc_now =
      (elapsed_rtc_sec st ext_rtc_now : Int) - (elapsed_ticks_sec st now_tick : Int) := by
    rw [detect_drift_active cfg st now_tick ext_rtc_now hext htk hts hmono hnw hrb hcb]
    rw [if_pos (Or.inl hfire)]
  refine ⟨by rw [hwrap]; unfold U32; omega, heq, fun hne => ?_⟩
  rw [heq]
  omega

/-- Witness for C9: checkpoint (tick 1000, timestamp 1000), now tick 6000
(5 elapsed seconds, below the tolerance 10), external RTC 1003: the band
wraps and the reported drift is `3 - 5 = -2 ≠ 0`. -/
theorem C9_witness :
    (5 : Nat) < u32sub 5 (drift_tolerance 5) ∧
    detect_drift cfg0 stC2 6000 1003 = (3 : Int) - 5 ∧
    ((3 : Nat) ≠ 5 → detect_drift cfg0 stC2 6000 1003 ≠ 0) :=
  C9_wrapped_band_fires cfg0 stC2 6000 1003 rfl (by decide) (by decide) (by decide)
    (by decide) (by decide) (by decide) (by decide)

/-! ### Per-source failure lemmas -/

lemma commit_not_mem_check (cfg : Config) (st : RtcState) (now_tick tstamp : Nat)
    (v : Nat) (o : Bool) :
    Effect.commitTime v o ∉ (check_timechange_safe cfg st now_tick tstamp).2 := by
  rcases check_snd cfg st now_tick tstamp with h | h <;> simp [h]

lemma set_snd (st : RtcState) (ok : Bool) (t : Nat) :
    (set_system_time st ok t).2.2 = [Effect.setSysCall (t % U32)] ∨
      ∃ o, (set_system_time st ok t).2.2 =
        [Effect.setSysCall (t % U32), Effect.commitTime (t % U32) o] := by
  unfold set_system_time
  by_cases h1 : t % U32 = U32 - 1
  · simp [h1]
  · cases ok <;> simp [h1]

lemma set_system_time_error (st : RtcState) (ok : Bool) (t : Nat)
    (h : (set_system_time st ok t).1 = RetResult.RET_ERROR) :
    (set_system_time st ok t).2.1 = st ∧
      ∀ v, Effect.commitTime v true ∉ (set_system_time st ok t).2.2 := by
  unfold set_system_time at h ⊢
  by_cases h1 : t % U32 = U32 - 1
  · simp [h1]
  · cases ok with
    | true => simp [h1] at h
    | false => simp [h1]

lemma http_error (cfg : Config) (env : SyncEnv) (st : RtcState)
    (h : (sync_time_from_http cfg env st).1 = RetResult.RET_ERROR) :
    (sync_time_from_http cfg env st).2.1 = st ∧
      ∀ v, Effect.commitTime v true ∉ (sync_time_from_http cfg env st).2.2 := by
  unfold sync_time_from_http at h ⊢
  cases hu : env.url_ok with
  | false => simp [hu]
  | true =>
    simp only [hu, Bool.not_true, Bool.false_eq_true, if_false] at h ⊢
    cases hr : env.http_resp with
    | none => simp [hr]
    | some r =>
      simp only [hr] at h ⊢
      by_cases hl : r.length = 10
      · simp only [hl, ne_eq, not_true_eq_false, Bool.false_eq_true, if_false] at h ⊢
        cases hchk : (check_timechange_safe cfg st env.http_check_tick
            (http_candidate (scan_u r) env.http_start_tick env.http_end_tick)).1 with
        | false =>
          simp only [hchk, Bool.not_false, if_true]
          refine ⟨trivial, fun v => ?_⟩
          simp only [List.mem_append, List.mem_singleton]
          rintro (h1 | h1)
          · exact absurd h1 (by simp)
          · exact commit_not_mem_check cfg st _ _ v true h1
        | true =>
          simp only [hchk, Bool.not_true, Bool.false_eq_true, if_false] at h ⊢
          have hs := set_system_time_error st env.http_set_ok _ h
          refine ⟨hs.1, fun v => ?_⟩
          simp only [List.append_assoc, List.mem_append, List.mem_singleton]
          rintro (h1 | h1 | h1)
          · exact absurd h1 (by simp)
          · exact commit_not_mem_check cfg st _ _ v true h1
          · exact hs.2 v h1
      · simp [hl]

lemma gsm_error (cfg : Config) (env : SyncEnv) (st : RtcState)
    (h : (sync_time_from_gsm_rtc cfg env st).1 = RetResult.RET_ERROR) :
    (sync_time_from_gsm_rtc cfg env st).2.1 = st ∧
      ∀ v, Effect.commitTime v true ∉ (sync_time_from_gsm_rtc cfg env st).2.2 := by
  unfold sync_time_from_gsm_rtc at h ⊢
  cases hg : env.gsm_time with
  | none => simp [hg]
  | some t =>
    simp only [hg] at h ⊢
    cases hchk : (check_timechange_safe cfg st env.gsm_check_tick (t % U32)).1 with
    | false =>
      simp only [hchk, Bool.not_false, if_true]
      refine ⟨trivial, fun v => ?_⟩
      simp only [List.mem_append, List.mem_singleton]
      rintro (h1 | h1)
      · exact absurd h1 (by simp)
      · exact commit_not_mem_check cfg st _ _ v true h1
    | true =>
      simp only [hchk, Bool.not_true, Bool.false_eq_true, if_false] at h ⊢
      have hs := set_system_time_error st env.gsm_set_ok _ h
      refine ⟨hs.1, fun v => ?_⟩
      simp only [List.append_assoc, List.mem_append, List.mem_singleton]
      rintro (h1 | h1 | h1)
      · exact absurd h1 (by simp)
      · exact commit_not_mem_check cfg st _ _ v true h1
      · exact hs.2 v h1

lemma ext_error (cfg : Config) (env : SyncEnv) (st : RtcState)
    (h : (sync_time_from_ext_rtc cfg env st).1 = RetResult.RET_ERROR) :
    (sync_time_from_ext_rtc cfg env st).2.1 = st ∧
      ∀ v, Effect.commitTime v true ∉ (sync_time_from_ext_rtc cfg env st).2.2 := by
  unfold sync_time_from_ext_rtc at h ⊢
  cases he : cfg.EXTERNAL_RTC_ENABLED with
  | false => simp [he]
  | true =>
    simp only [he, Bool.not_true, Bool.false_eq_true, if_false] at h ⊢
    cases hchk : (check_timechange_safe cfg st env.ext_rtc_check_tick (env.ext_rtc_time % U32)).1 with
    | false =>
      simp only [hchk, Bool.not_false, if_true]
      refine ⟨trivial, fun v => ?_⟩
      simp only [List.mem_append, List.mem_singleton]
      rintro (h1 | h1)
      · exact absurd h1 (by simp)
      · exact commit_not_mem_check cfg st _ _ v true h1
    | true =>
      simp only [hchk, Bool.not_true, Bool.false_eq_true, if_false] at h ⊢
      cases hso : env.ext_rtc_set_ok with
      | true => simp [hso] at h
      | false =>
        simp only [hso, Bool.false_eq_true, if_false]
        refine ⟨trivial, fun v => ?_⟩
        simp only [List.append_assoc, List.mem_append, List.mem_singleton]
        rintro (h1 | h1 | h1)
        · exact absurd h1 (by simp)
        · exact commit_not_mem_check cfg st _ _ v true h1
        · exact absurd h1 (by simp)

lemma net_fallback_error (cfg : Config) (env : SyncEnv) (st : RtcState) (acc : List Effect)
    (hacc : ∀ v, Effect.commitTime v true ∉ acc)
    (h : (sync_net_fallback cfg env st acc).1 = RetResult.RET_ERROR) :
    (sync_net_fallback cfg env st acc).2.2.2.1 = st ∧
      ∀ v, Effect.commitTime v true ∉ (sync_net_fallback cfg env st acc).2.2.2.2 := by
  unfold sync_net_fallback at h ⊢
  cases he : cfg.EXTERNAL_RTC_ENABLED with
  | false =>
    simp only [he, Bool.false_eq_true, if_false] at h ⊢
    cases hg1 : (sync_time_from_gsm_rtc cfg env st).1 with
    | RET_OK => simp [hg1] at h
    | RET_ERROR =>
      have hg := gsm_error cfg env st hg1
      simp only [hg1, reduceCtorEq, if_false]
      refine ⟨hg.1, fun v => ?_⟩
      simp only [List.mem_append]
      rintro (h1 | h1)
      · exact hacc v h1
      · exact hg.2 v h1
  | true =>
    simp only [he, if_true] at h ⊢
    cases he1 : (sync_time_from_ext_rtc cfg env st).1 with
    | RET_OK => simp [he1] at h
    | RET_ERROR =>
      have hee := ext_error cfg env st he1
      simp only [he1, reduceCtorEq, if_false] at h ⊢
      rw [hee.1] at h ⊢
      cases hg1 : (sync_time_from_gsm_rtc cfg env st).1 with
      | RET_OK => simp [hg1] at h
      | RET_ERROR =>
        have hg := gsm_error cfg env st hg1
        simp only [hg1, reduceCtorEq, if_false]
        refine ⟨hg.1, fun v => ?_⟩
        simp only [List.append_assoc, List.mem_append]
        rintro (h1 | h1 | h1)
        · exact hacc v h1
        · exact hee.2 v h1
        · exact hg.2 v h1

lemma ntp_trace_commit_free (env : SyncEnv) (v : Nat) :
    Effect.commitTime v true ∉ (sync_gsm_rtc_from_ntp env).2 := by
  simp [sync_gsm_rtc_from_ntp]

lemma sync_main_error (cfg : Config) (env : SyncEnv) (st : RtcState)
    (h : (sync_main cfg env st).1 = RetResult.RET_ERROR) :
    (sync_main cfg env st).2.2.2.1 = st ∧
      ∀ v, Effect.commitTime v true ∉ (sync_main cfg env st).2.2.2.2 := by
  unfold sync_main at h ⊢
  cases hnet : (env.gprs_connected || env.connect_ok) with
  | false =>
    simp only [hnet, Bool.false_eq_true, if_false] at h ⊢
    cases he : cfg.EXTERNAL_RTC_ENABLED with
    | false => simp [he]
    | true =>
      simp only [he, if_true] at h ⊢
      cases he1 : (sync_time_from_ext_rtc cfg env st).1 with
      | RET_OK => simp [he1] at h
      | RET_ERROR =>
        simp only [he1, reduceCtorEq, if_false]
        exact ext_error cfg env st he1
  | true =>
    simp only [hnet, if_true] at h ⊢
    cases hh : (sync_time_from_http cfg env st).1 with
    | RET_OK => simp [hh] at h
    | RET_ERROR =>
      have hhe := http_error cfg env st hh
      simp only [hh, reduceCtorEq, if_false] at h ⊢
      rw [hhe.1] at h ⊢
      cases hn : env.ntp_ok with
      | false =>
        simp only [sync_gsm_rtc_from_ntp, hn, Bool.false_eq_true, if_false, reduceCtorEq] at h ⊢
        have hb := net_fallback_error cfg env st
          ((sync_time_from_http cfg env st).2.2 ++ [Effect.ntpSync false])
          (fun v hv => by
            rcases List.mem_append.1 hv with h1 | h1
            · exact hhe.2 v h1
            · simp at h1) h
        exact hb
      | true =>
        simp only [sync_gsm_rtc_from_ntp, hn, if_true] at h ⊢
        cases hg1 : (sync_time_from_gsm_rtc cfg env st).1 with
        | RET_OK => simp [hg1] at h
        | RET_ERROR =>
          have hg := gsm_error cfg env st hg1
          simp only [hg1, reduceCtorEq, if_false] at h ⊢
          rw [hg.1] at h ⊢
          have hb := net_fallback_error cfg env st
            ((sync_time_from_http cfg env st).2.2 ++ [Effect.ntpSync true] ++
              (sync_time_from_gsm_rtc cfg env st).2.2)
            (fun v hv => by
              rcases List.mem_append.1 hv with h1 | h1
              · rcases List.mem_append.1 h1 with h2 | h2
                · exact hhe.2 v h2
                · simp at h2
              · exact hg.2 v h1) h
          exact hb

lemma sync_last_tick (cfg : Config) (env : SyncEnv) (st0 : RtcState) (b : Bool) :
    ((sync cfg env st0 b).2.2.1).last_sync_tick = env.end_tick % U32 := by
  unfold sync
  cases hr : (sync_main cfg env { st0 with timechange_safety_enabled := b }).1 <;>
    simp [hr, reset_drift_check]

/-- C5: when `sync` returns failure (every source in the fallback chain
failed its plausibility/tolerance check or errored), the system clock is
unchanged, no successful commit (`set_system_time` / `settimeofday`)
occurred, and `_last_sync_tick` is nevertheless updated to the tick taken
at the end of the attempt. -/
theorem C5_failed_sync_state (cfg : Config) (env : SyncEnv) (st0 : RtcState) (b : Bool)
    (h : (sync cfg env st0 b).1 = RetResult.RET_ERROR) :
    ((sync cfg env st0 b).2.2.1).clock = st0.clock ∧
    ((sync cfg env st0 b).2.2.1).last_sync_tick = env.end_tick % U32 ∧
    ∀ v, Effect.commitTime v true ∉ (sync cfg env st0 b).2.2.2 := by
  have hm : (sync_main cfg env { st0 with timechange_safety_enabled := b }).1 =
      RetResult.RET_ERROR := h
  have he := sync_main_error cfg env { st0 with timechange_safety_enabled := b } hm
  refine ⟨?_, sync_last_tick cfg env st0 b, fun v => ?_⟩
  · unfold sync
    simp [hm, he.1]
  · unfold sync
    simp only [hm, reduceCtorEq, and_false, if_neg, not_false_eq_true,
      List.append_nil, List.mem_append, List.mem_singleton]
    rintro (h1 | h1)
    · exact he.2 v h1
    · exact absurd h1 (by simp)

/-- C6: with the network unreachable (not connected, connect fails), the
external RTC enabled and its value accepted by the gate, `sync` consults
exactly one time source — the external RTC read — it never issues an HTTP
GET, NTP trigger or modem-clock read, and it never writes the external RTC
back. -/
theorem C6_offline_ext_rtc_only (cfg : Config) (env : SyncEnv) (st0 : RtcState) (b : Bool)
    (hg : env.gprs_connected = false) (hc : env.connect_ok = false)
    (he : cfg.EXTERNAL_RTC_ENABLED = true)
    (hs : (check_timechange_safe cfg { st0 with timechange_safety_enabled := b }
        env.ext_rtc_check_tick (env.ext_rtc_time % U32)).1 = true) :
    ((sync cfg env st0 b).2.2.2).filter is_source_consult = [Effect.extRtcRead] ∧
    ∀ v o, Effect.extRtcWrite v o ∉ (sync cfg env st0 b).2.2.2 := by
  have hlog := check_true_no_log hs
  unfold sync sync_main sync_time_from_ext_rtc
  cases hso : env.ext_rtc_set_ok <;>
    simp [hg, hc, he, hs, hlog, hso, is_source_consult, List.filter]

/-- C3: with a parsable configured URL, `sync_time_from_http` issues
exactly one HTTP GET per call; a response body whose length is not 10 is
rejected before parsing, and the 10-character non-numeric body
`"abcdefghij"` (which `sscanf "%u"` leaves at 0) is rejected by the
plausibility window; in each such case the call returns an error, the
system clock is unchanged, and `set_system_time` is never reached. -/
theorem C3_http_reject_malformed (cfg : Config) (env : SyncEnv) (st : RtcState)
    (hurl : env.url_ok = true)
    (hE : cfg.FAIL_CHECK_TIMESTAMP_END +
        offset_sec (u32sub env.http_end_tick env.http_start_tick) ≤ U32) :
    ((sync_time_from_http cfg env st).2.2.filter is_http_get).length = 1 ∧
    (∀ b, env.http_resp = some b → b.length ≠ 10 →
      (sync_time_from_http cfg env st).1 = RetResult.RET_ERROR ∧
      (sync_time_from_http cfg env st).2.1 = st ∧
      ∀ v, Effect.setSysCall v ∉ (sync_time_from_http cfg env st).2.2) ∧
    (env.http_resp = some "abcdefghij" →
      (sync_time_from_http cfg env st).1 = RetResult.RET_ERROR ∧
      (sync_time_from_http cfg env st).2.1 = st ∧
      ∀ v, Effect.setSysCall v ∉ (sync_time_from_http cfg env st).2.2) := by
  refine ⟨?_, ?_, ?_⟩
  · -- exactly one GET whatever the transport and body do
    unfold sync_time_from_http
    simp only [hurl, Bool.not_true, Bool.false_eq_true, if_false]
    cases hr : env.http_resp with
    | none => simp [is_http_get]
    | some r =>
      by_cases hl : r.length = 10
      · have hsd := set_snd st env.http_set_ok
            (http_candidate (scan_u r) env.http_start_tick env.http_end_tick)
        have hcd := check_snd cfg st env.http_check_tick
            (http_candidate (scan_u r) env.http_start_tick env.http_end_tick)
        simp only [hl, ne_eq, not_true_eq_false, Bool.false_eq_true, if_false]
        rcases hcd with hcc | hcc <;> rcases hsd with hss | ⟨o, hss⟩ <;>
          cases hchk : (check_timechange_safe cfg st env.http_check_tick
            (http_candidate (scan_u r) env.http_start_tick env.http_end_tick)).1 <;>
          simp [hchk, hcc, hss, is_http_get, List.filter]
      · simp [hl, is_http_get]
  · -- wrong-length body: rejected before parsing
    intro b hb hlen
    unfold sync_time_from_http
    simp [hurl, hb, hlen]
  · -- non-numeric 10-character body: candidate is implausible
    intro hb
    have hscan : scan_u "abcdefghij" = 0 := by decide
    have hcand : http_candidate 0 env.http_start_tick env.http_end_tick = 0 ∨
        cfg.FAIL_CHECK_TIMESTAMP_END ≤
          http_candidate 0 env.http_start_tick env.http_end_tick := by
      unfold http_candidate
      unfold offset_sec u32sub U32 at hE ⊢
      omega
    have hval : tstamp_valid cfg
        (http_candidate 0 env.http_start_tick env.http_end_tick) = false := by
      unfold tstamp_valid
      rcases hcand with h | h
      · rw [h]
        simp
      · have h2 : ¬ (http_candidate 0 env.http_start_tick env.http_end_tick <
            cfg.FAIL_CHECK_TIMESTAMP_END) := not_lt.2 h
        simp [h2]
    unfold sync_time_from_http
    rw [hb]
    simp only [hurl, Bool.not_true, Bool.false_eq_true, if_false]
    rw [check_invalid st env.http_check_tick (hscan ▸ hval)]
    simp

/-- Witness for the amended C1 at a concrete in-band candidate. -/
theorem C1_witness :
    ((check_timechange_safe cfg0 stC1 100000 1700000005).1 = true ↔
      1700000000 - safety_tolerance (u32sub 100000 0) ≤ 1700000005 ∧
      1700000005 ≤ 1700000000 + safety_tolerance (u32sub 100000 0)) :=
  C1_gate_band cfg0 stC1 100000 1700000005 rfl rfl (by decide) (by decide) (by decide)

/-! ### Concrete environments for the orchestrator-level witnesses -/

/-- A boot-like state with a realistic clock. -/
def stB : RtcState :=
  { clock := 1650000000, last_sync_tick := 0, last_drift_check_tstamp := 0,
    last_drift_check_tick := 0, timechange_safety_enabled := true }

/-- Network reachable, transport returns the non-numeric body. -/
def envC3 : SyncEnv :=
  { gprs_connected := true, connect_ok := false, url_ok := true,
    http_start_tick := 1000, http_resp := some "abcdefghij", http_end_tick := 3500,
    http_check_tick := 4000, http_set_ok := true,
    ntp_ok := false, gsm_time := none, gsm_check_tick := 5000, gsm_set_ok := true,
    ext_rtc_time := 0, ext_rtc_check_tick := 6000, ext_rtc_set_ok := true,
    ext_rtc_write_ok := true, end_tick := 7000, drift_reset_tick := 7001 }

/-- Network unreachable and the external RTC reading implausible:
every source fails. -/
def envC5 : SyncEnv := { envC3 with gprs_connected := false }

/-- Network unreachable but the external RTC holds a plausible epoch. -/
def envC6 : SyncEnv := { envC5 with ext_rtc_time := 1700000000 }

/-- Witness for C3 on the concrete non-numeric body. -/
theorem C3_witness :
    ((sync_time_from_http cfg0 envC3 stB).2.2.filter is_http_get).length = 1 ∧
    (sync_time_from_http cfg0 envC3 stB).1 = RetResult.RET_ERROR ∧
    (sync_time_from_http cfg0 envC3 stB).2.1 = stB :=
  ⟨(C3_http_reject_malformed cfg0 envC3 stB rfl (by decide)).1,
   ((C3_http_reject_malformed cfg0 envC3 stB rfl (by decide)).2.2 rfl).1,
   ((C3_http_reject_malformed cfg0 envC3 stB rfl (by decide)).2.2 rfl).2.1⟩

/-- Witness for C5 on a concrete all-sources-fail run. -/
theorem C5_witness :
    ((sync cfg0 envC5 stB true).2.2.1).clock = stB.clock ∧
    ((sync cfg0 envC5 stB true).2.2.1).last_sync_tick = envC5.end_tick % U32 :=
  ⟨(C5_failed_sync_state cfg0 envC5 stB true (by decide)).1,
   (C5_failed_sync_state cfg0 envC5 stB true (by decide)).2.1⟩

/-- Witness for C6 on a concrete offline run with a valid external RTC. -/
theorem C6_witness :
    ((sync cfg0 envC6 stB false).2.2.2).filter is_source_consult = [Effect.extRtcRead] :=
  (C6_offline_ext_rtc_only cfg0 envC6 stB false rfl rfl rfl (by decide)).1

end RTC
